import Mathlib

/-!
# Verification of the MAVU real-time streaming session core

Shallow embedding of the real-time streaming conversation session of the
MAVU backend (`backend/realtime/websocket_handler.py`,
`backend/realtime/openai_client.py`, `backend/utils/text_filter.py`,
`backend/rag/pipeline.py`) together with proofs about the embedded
operations.

Conventions used throughout:
* Python `str` values are modelled as `List Char` (Unicode code points),
  matching Python's code-point view of strings; voice identifiers and
  protocol event tags, which are only ever compared for equality, are kept
  as Lean `String`.
* Python `float` timing/duration arithmetic is modelled over `ℚ`; the
  duration formula `bytes / 2 / 24000 * 1000` is exact in `ℚ`.
* Character classification functions (`unicodedata.category`,
  `str.isalnum`, `str.lower`, `str.isspace`) are embedded as executable
  tables that agree with Python on the character repertoire exercised by
  this development (ASCII, Latin-1, the Russian Cyrillic alphabet, and the
  emoji/symbol blocks named in the source); every universally quantified
  theorem below is independent of the classification outside that
  repertoire, and every concrete evaluation only uses characters inside it.
-/

namespace Mavu

/-! ## Character-level primitives (backend/utils/text_filter.py) -/

/-- Python `str.isspace` / regex `\s` membership for one character
(whitespace code points as recognised by CPython). -/
def pyIsSpace (c : Char) : Bool :=
  let n := c.toNat
  (0x09 ≤ n && n ≤ 0x0D) || n == 0x20 || (0x1C ≤ n && n ≤ 0x1F) ||
  n == 0x85 || n == 0xA0 || n == 0x1680 ||
  (0x2000 ≤ n && n ≤ 0x200A) || n == 0x2028 || n == 0x2029 ||
  n == 0x202F || n == 0x205F || n == 0x3000

/-- Python `str.strip()`: drop leading and trailing whitespace. -/
def pyStrip (s : List Char) : List Char :=
  ((s.dropWhile pyIsSpace).reverse.dropWhile pyIsSpace).reverse

/-- Python `str.isalnum` for one character, on the repertoire exercised
here: ASCII letters and digits plus the Russian Cyrillic alphabet. -/
def pyIsAlnum (c : Char) : Bool :=
  let n := c.toNat
  (0x30 ≤ n && n ≤ 0x39) || (0x41 ≤ n && n ≤ 0x5A) ||
  (0x61 ≤ n && n ≤ 0x7A) ||
  (0x410 ≤ n && n ≤ 0x44F) || n == 0x401 || n == 0x451

/-- Python `str.lower` for one character on the repertoire exercised here
(ASCII, Latin-1 uppercase letters, Russian Cyrillic); other characters are
left unchanged. -/
def pyLowerChar (c : Char) : Char :=
  let n := c.toNat
  if 0x41 ≤ n && n ≤ 0x5A then Char.ofNat (n + 0x20)
  else if (0xC0 ≤ n && n ≤ 0xDE) && n != 0xD7 then Char.ofNat (n + 0x20)
  else if 0x410 ≤ n && n ≤ 0x42F then Char.ofNat (n + 0x20)
  else if n == 0x401 then Char.ofNat 0x451
  else c

/-- `unicodedata.category(char) in ('So', 'Sk', 'Sm')`: symbol-category
membership on the repertoire exercised here (exact for ASCII and
Latin-1; the emoji blocks below are additionally covered by the explicit
code-point ranges of `isEmojiChar`). -/
def pyCatSymbol (c : Char) : Bool :=
  let n := c.toNat
  -- ASCII: Sm = + < = > | ~ ; Sk = ^ `
  n == 0x2B || (0x3C ≤ n && n ≤ 0x3E) || n == 0x7C || n == 0x7E ||
  n == 0x5E || n == 0x60 ||
  -- Latin-1: So = ¦ © ® ° ; Sk = ¨ ¯ ´ ¸ ; Sm = ¬ ± × ÷
  n == 0xA6 || n == 0xA9 || n == 0xAE || n == 0xB0 ||
  n == 0xA8 || n == 0xAF || n == 0xB4 || n == 0xB8 ||
  n == 0xAC || n == 0xB1 || n == 0xD7 || n == 0xF7 ||
  -- Misc symbols / dingbats blocks (all So in Unicode)
  (0x2600 ≤ n && n ≤ 0x26FF) || (0x2700 ≤ n && n ≤ 0x27BF)

/-- `is_emoji` for a single character: symbol Unicode category or one of
the explicit code-point ranges listed in the source. -/
def isEmojiChar (c : Char) : Bool :=
  pyCatSymbol c ||
  (let n := c.toNat
   (0x1F600 ≤ n && n ≤ 0x1F64F) || (0x1F300 ≤ n && n ≤ 0x1F5FF) ||
   (0x1F680 ≤ n && n ≤ 0x1F6FF) || (0x1F1E0 ≤ n && n ≤ 0x1F1FF) ||
   (0x2600 ≤ n && n ≤ 0x26FF) || (0x2700 ≤ n && n ≤ 0x27BF) ||
   (0xFE00 ≤ n && n ≤ 0xFE0F) || (0x1F900 ≤ n && n ≤ 0x1F9FF) ||
   (0x1F018 ≤ n && n ≤ 0x1F270) || (0x238C ≤ n && n ≤ 0x2454) ||
   (0x20D0 ≤ n && n ≤ 0x20FF))

/-- `remove_emojis`: keep the characters that are not emojis. -/
def removeEmojis (s : List Char) : List Char :=
  s.filter (fun c => !isEmojiChar c)

/-! ### The noise patterns of `is_meaningful_text`

The regular expressions in the source file contain literal non-ASCII
characters (the file is stored with a double-encoded character set); the
definitions below embed the code points exactly as they appear in the
file.  Each pattern is anchored `^...$` and is matched against the
already-stripped, lowered text, so `re.match` is full-string matching. -/

/-- The character class of the first noise pattern, translated item by
item in source order (literals and `Ä`-ranges as decoded from the file). -/
def noiseClass1Char (c : Char) : Bool :=
  let n := c.toNat
  n == 0xF8FF || n == 0xFC || n == 0xF2 || (0xC4 ≤ n && n ≤ 0xF8FF) ||
  n == 0xF4 || n == 0xE8 || n == 0xE5 || (0xC4 ≤ n && n ≤ 0xF8FF) ||
  n == 0xF3 || n == 0xF8 || n == 0xF6 || (0xC4 ≤ n && n ≤ 0xF8FF) ||
  n == 0xF5 || n == 0x201A || (0xC4 ≤ n && n ≤ 0x201A) ||
  n == 0xFA || (0xC4 ≤ n && n ≤ 0x201A) ||
  n == 0xFB || n == 0xA7 || (0xC4 ≤ n && n ≤ 0xF8FF) || n == 0xDF

/-- Pattern 1: one or more characters of `noiseClass1Char`. -/
def noisePattern1 (s : List Char) : Bool :=
  !s.isEmpty && s.all noiseClass1Char

/-- Pattern 2 character class: `[.,!?;:\-\s]`. -/
def punctClassChar (c : Char) : Bool :=
  c == '.' || c == ',' || c == '!' || c == '?' || c == ';' || c == ':' ||
  c == '-' || pyIsSpace c

/-- Pattern 2: one or more punctuation/whitespace characters. -/
def noisePattern2 (s : List Char) : Bool :=
  !s.isEmpty && s.all punctClassChar

/-- Pattern 3: three or more characters of the class `[a – ∞]`
(as literally present in the file). -/
def noisePattern3 (s : List Char) : Bool :=
  decide (3 ≤ s.length) &&
  s.all (fun c => c == 'a' || c.toNat == 0x2013 || c.toNat == 0x221E)

/-- Pattern 4: three or more characters of the class `[h — Ö]`. -/
def noisePattern4 (s : List Char) : Bool :=
  decide (3 ≤ s.length) &&
  s.all (fun c => c == 'h' || c.toNat == 0x2014 || c.toNat == 0xD6)

/-- Pattern 5: three or more characters of the class `[— É]`. -/
def noisePattern5 (s : List Char) : Bool :=
  decide (3 ≤ s.length) &&
  s.all (fun c => c.toNat == 0x2014 || c.toNat == 0xC9)

/-- Pattern 6: a literal `–` followed by three or more `º`. -/
def noisePattern6 (s : List Char) : Bool :=
  match s with
  | [] => false
  | c :: rest =>
      c.toNat == 0x2013 && decide (3 ≤ rest.length) &&
      rest.all (fun d => d.toNat == 0xBA)

/-- Pattern 7: a literal `—` followed by three or more `ç`. -/
def noisePattern7 (s : List Char) : Bool :=
  match s with
  | [] => false
  | c :: rest =>
      c.toNat == 0x2014 && decide (3 ≤ rest.length) &&
      rest.all (fun d => d.toNat == 0xE7)

/-- Any of the seven noise patterns matches the (lowered) text. -/
def matchesNoisePattern (s : List Char) : Bool :=
  noisePattern1 s || noisePattern2 s || noisePattern3 s ||
  noisePattern4 s || noisePattern5 s || noisePattern6 s || noisePattern7 s

/-- `is_meaningful_text` from `backend/utils/text_filter.py`. -/
def isMeaningfulText (text : List Char) : Bool :=
  if text.isEmpty || (pyStrip text).length == 0 then false
  else
    let cleaned := pyStrip (removeEmojis text)
    if cleaned.length < 2 then false
    else if ((cleaned.filter (fun c => c != ' ')).all
        (fun c => !pyIsAlnum c)) then false
    else if matchesNoisePattern (cleaned.map pyLowerChar) then false
    else true

/-- Python `str.split()` (split on whitespace runs, dropping empties);
auxiliary accumulator form. -/
def splitWSAux : List Char → List Char → List (List Char)
  | [], acc => if acc.isEmpty then [] else [acc.reverse]
  | c :: rest, acc =>
      if pyIsSpace c then
        if acc.isEmpty then splitWSAux rest []
        else acc.reverse :: splitWSAux rest []
      else splitWSAux rest (c :: acc)

/-- Python `str.split()`. -/
def pySplitWS (s : List Char) : List (List Char) := splitWSAux s []

/-- `' '.join(words)`. -/
def joinSpace (ws : List (List Char)) : List Char :=
  (ws.intersperse [' ']).flatten

/-- `clean_chat_message` from `backend/utils/text_filter.py`. -/
def cleanChatMessage (text : List Char) : List Char :=
  if text.isEmpty then []
  else if !isMeaningfulText text then []
  else pyStrip (joinSpace (pySplitWS (removeEmojis text)))

/-! ## Messages sent to the client WebSocket

Only the fields the verified properties depend on are carried: the
message `type` tag, the `status` of a `response.done`, and the text of an
`error` message.  `_send_to_client` never raises into its callers (it
swallows every transport error), so sending is modelled as pure list
construction. -/

/-- A message sent to the client over the session WebSocket. -/
inductive ClientMsg where
  | responseDone (status : String)
  | errorMsg (text : String)
  | audioReceived
  | contextUpdated
  | contextRefreshed
  | voiceChanged (oldVoice newVoice : String)
  | profileUpdated
  deriving DecidableEq, Repr

/-- Is this a `response.done` terminal notice (of any status)? -/
def ClientMsg.isResponseDone : ClientMsg → Bool
  | .responseDone _ => true
  | _ => false

/-- Is this an `error`-typed message? -/
def ClientMsg.isError : ClientMsg → Bool
  | .errorMsg _ => true
  | _ => false

/-- Number of `response.done` notices in a message list. -/
def responseDoneCount (msgs : List ClientMsg) : Nat :=
  (msgs.filter ClientMsg.isResponseDone).length

/-! ## Audio admission tracking (RealtimeStreamHandler audio buffer)

The pending-audio-buffer fields of `RealtimeStreamHandler`:
`audio_buffer_size`, `audio_buffer_duration_ms`, `audio_chunk_count`,
`last_audio_chunk_time` and `chunk_receive_times`.  Times are event-loop
seconds, modelled over `ℚ`. -/

/-- The audio-buffer tracking state of one streaming session. -/
structure TrackerState where
  size : Nat
  durationMs : ℚ
  count : Nat
  lastTime : Option ℚ
  intervals : List ℚ
  deriving DecidableEq, Repr

/-- The tracker state of a freshly constructed handler. -/
def initialTracker : TrackerState :=
  { size := 0, durationMs := 0, count := 0, lastTime := none, intervals := [] }

/-- `max_latency_samples`: the inter-arrival window keeps 10 samples. -/
def maxLatencySamples : Nat := 10

/-- `min_buffer_duration_ms`: 100ms minimum required by the upstream. -/
def minBufferDurationMs : ℚ := 100

/-- The chunk bookkeeping of `_handle_audio_input` (lines 407–425):
record one decoded chunk of `nBytes` bytes arriving at time `now`.
Duration contribution is `bytes / 2 / 24000 * 1000` ms (16-bit mono PCM
at 24kHz); one inter-arrival sample is appended when a previous arrival
exists, trimming the window from the front past 10 samples. -/
def recordChunk (st : TrackerState) (nBytes : Nat) (now : ℚ) : TrackerState :=
  let intervals :=
    match st.lastTime with
    | none => st.intervals
    | some t =>
        let l := st.intervals ++ [now - t]
        if maxLatencySamples < l.length then l.drop 1 else l
  { size := st.size + nBytes,
    durationMs := st.durationMs + (nBytes : ℚ) / 2 / 24000 * 1000,
    count := st.count + 1,
    lastTime := some now,
    intervals := intervals }

/-- Zero the three buffer counters (`audio_buffer_size`,
`audio_buffer_duration_ms`, `audio_chunk_count`), as done after every
commit attempt and on upstream `input_audio_buffer.committed`. -/
def resetAudioBuffer (st : TrackerState) : TrackerState :=
  { st with size := 0, durationMs := 0, count := 0 }

/-- Maximum of a list (Python `max`, only applied to nonempty lists). -/
def listMax : List ℚ → ℚ
  | [] => 0
  | x :: xs => xs.foldl max x

/-- The dynamic grace period in seconds (`_handle_audio_commit`
lines 485–494): `max(0.15, min(0.5, max(avg * 2, max_interval)))` over the
recorded inter-arrival samples, defaulting to 0.2s with no samples. -/
def gracePeriodS (intervals : List ℚ) : ℚ :=
  if intervals.isEmpty then 1/5
  else
    let avg := intervals.sum / (intervals.length : ℚ)
    max (3/20) (min (1/2) (max (avg * 2) (listMax intervals)))

/-- `clamp` as written in the specification: `clamp(x, lo, hi)`. -/
def clampQ (lo hi x : ℚ) : ℚ := max lo (min hi x)

/-- Python's `needle in haystack` substring test on code-point lists. -/
def listContains (needle haystack : List Char) : Bool :=
  (List.range (haystack.length + 1)).any
    (fun i => needle.isPrefixOf (haystack.drop i))

/-- The upstream buffer-error signature (`_handle_audio_commit`
lines 553–554): the lowered error text contains `"buffer"` together with
`"empty"`, `"too small"` or `"0.00ms"`. -/
def isBufferError (msg : List Char) : Bool :=
  let s := msg.map pyLowerChar
  listContains "buffer".toList s &&
  (listContains "empty".toList s || listContains "too small".toList s ||
   listContains "0.00ms".toList s)

/-- The observable effects of one `audio.commit` request. -/
structure CommitEffects where
  finalState : TrackerState
  msgs : List ClientMsg
  upstreamCommits : Nat
  graceWaitS : Option ℚ
  deriving DecidableEq, Repr

/-- `_handle_audio_commit` (lines 449–595).  `connected` is the upstream
link's `is_connected`; `commitResult` is the outcome of the single
`commit_audio()` call should it be reached (`Except.error` carries the
exception text).  `graceWaitS` records the grace-period delay actually
awaited (`none` on the paths that return before the sleep). -/
def handleAudioCommit (connected : Bool) (st : TrackerState)
    (commitResult : Except (List Char) Unit) : CommitEffects :=
  if !connected then
    { finalState := st,
      msgs := [.errorMsg "Session not ready. Please wait for connection."],
      upstreamCommits := 0, graceWaitS := none }
  else if st.count == 0 && st.durationMs == 0 then
    -- EARLY VALIDATION: empty buffer, reject before the grace period
    { finalState := st, msgs := [.responseDone "no_audio"],
      upstreamCommits := 0, graceWaitS := none }
  else
    let grace := gracePeriodS st.intervals
    if st.durationMs < minBufferDurationMs then
      -- INSUFFICIENT BUFFER after the grace period: reset and notify
      { finalState := resetAudioBuffer st,
        msgs := [.responseDone "insufficient_audio"],
        upstreamCommits := 0, graceWaitS := some grace }
    else
      match commitResult with
      | .ok _ =>
          { finalState := resetAudioBuffer st, msgs := [],
            upstreamCommits := 1, graceWaitS := some grace }
      | .error emsg =>
          if isBufferError emsg then
            { finalState := resetAudioBuffer st,
              msgs := [.responseDone "openai_rejected"],
              upstreamCommits := 1, graceWaitS := some grace }
          else
            { finalState := resetAudioBuffer st,
              msgs := [.errorMsg "Error processing audio. Please try again."],
              upstreamCommits := 1, graceWaitS := some grace }

/-- The tracker states reachable in a session: the freshly constructed
state, extended by chunk recording and by the buffer resets (after commit
attempts, VAD commits, and cleanup). -/
inductive ReachableTracker : TrackerState → Prop where
  | init : ReachableTracker initialTracker
  | record (st : TrackerState) (nBytes : Nat) (now : ℚ) :
      ReachableTracker st → ReachableTracker (recordChunk st nBytes now)
  | reset (st : TrackerState) :
      ReachableTracker st → ReachableTracker (resetAudioBuffer st)

/-! ## Turn completion (`_handle_response_complete`, lines 1157–1320)

External outcomes are passed as parameters: `hasDb` — a database session
is attached; `profileMsgs` — the client messages emitted by the
best-effort profile-extraction step (that step never emits a
`response.done`; its own failures are caught at line 1171); `cachedDbUserId`
— `self.db_user_id` was already resolved by an earlier turn;
`dbUserFound` — the user row exists; `redis1Ok`/`redis2Ok` — the two
rolling-cache writes succeed (an exception on the first skips the second,
both are absorbed at line 1216); `dbOk` — the durable insert commits
(failure absorbed at line 1288).  Every operation reached inside the
method body either returns normally or is wrapped in its own
`try/except`, so the outer error path (status `"error"`) is not reachable
from the modelled inputs and is not modelled. -/

/-- Observable effects of one turn completion: messages sent to the
client, the number of rolling-cache entries and durable rows actually
persisted, and the transcript accumulators afterwards. -/
structure TurnEffects where
  msgs : List ClientMsg
  redisSaved : Nat
  dbSaved : Nat
  newUserMsg : List Char
  newAsstMsg : List Char
  deriving DecidableEq, Repr

/-- `_handle_response_complete`. -/
def handleResponseComplete (userMsg asst : List Char) (hasDb : Bool)
    (profileMsgs : List ClientMsg) (cachedDbUserId dbUserFound : Bool)
    (redis1Ok redis2Ok dbOk : Bool) : TurnEffects :=
  if userMsg.isEmpty then
    -- "No user message to save": return without any notice
    { msgs := [], redisSaved := 0, dbSaved := 0,
      newUserMsg := userMsg, newAsstMsg := asst }
  else
    let pmsgs := if hasDb then profileMsgs else []
    let cleanedUser := cleanChatMessage userMsg
    let cleanedAsst := cleanChatMessage asst
    if cleanedUser.isEmpty || !isMeaningfulText userMsg then
      -- skip non-meaningful message: reset accumulators, no notice
      { msgs := pmsgs, redisSaved := 0, dbSaved := 0,
        newUserMsg := [], newAsstMsg := [] }
    else
      let redisSaved :=
        if redis1Ok then
          1 + (if !cleanedAsst.isEmpty && redis2Ok then 1 else 0)
        else 0
      if hasDb && !cachedDbUserId && !dbUserFound then
        -- "User not found in database": reset and return, no notice
        { msgs := pmsgs, redisSaved := redisSaved, dbSaved := 0,
          newUserMsg := [], newAsstMsg := [] }
      else
        let dbSaved := if hasDb && dbOk then 1 else 0
        { msgs := pmsgs ++ [ClientMsg.responseDone "completed"],
          redisSaved := redisSaved, dbSaved := dbSaved,
          newUserMsg := [], newAsstMsg := [] }

/-! ## Voice change (`_handle_voice_change`, lines 670–759) -/

/-- The fixed allowed voice set (line 699). -/
def validVoices : List String :=
  ["alloy", "ash", "ballad", "coral", "echo", "sage", "shimmer", "verse",
   "marin", "cedar"]

/-- The `SKINS` catalogue of `backend/config.py` restricted to the
`voice` field (every configured skin carries one). -/
def skinVoice : Nat → Option String
  | 1 => some "echo"
  | 2 => some "shimmer"
  | 3 => some "alloy"
  | 4 => some "ash"
  | 5 => some "ballad"
  | 6 => some "coral"
  | 7 => some "sage"
  | 8 => some "verse"
  | 9 => some "marin"
  | 10 => some "cedar"
  | _ => none

/-- Observable effects of one `voice.change` request: messages to the
client, the session's selected voice afterwards, the number of upstream
`session.update` events pushed, and the number of skin preferences
persisted to the user row. -/
structure VoiceChangeEffects where
  msgs : List ClientMsg
  voice : String
  sessionUpdates : Nat
  dbSkinWrites : Nat
  deriving DecidableEq, Repr

/-- `_handle_voice_change`.  `voiceReq`/`skinReq` are the request payload
fields (Python truthiness: an empty voice string or a zero skin id counts
as absent); `oldVoice` is the session's current `user_voice`; `dbOk` —
the preference write commits (failure rolled back and absorbed at
line 747). -/
def handleVoiceChange (voiceReq : Option String) (skinReq : Option Nat)
    (connected : Bool) (hasDb dbOk : Bool) (oldVoice : String) :
    VoiceChangeEffects :=
  let voiceOpt := match voiceReq with
    | some v => if v == "" then none else some v
    | none => none
  let skinOpt := match skinReq with
    | some k => if k == 0 then none else some k
    | none => none
  match voiceOpt, skinOpt with
  | none, none =>
      { msgs := [.errorMsg "Please provide either 'voice' or 'skin_id'"],
        voice := oldVoice, sessionUpdates := 0, dbSkinWrites := 0 }
  | _, _ =>
      let resolved := match skinOpt with
        | some k => skinVoice k
        | none => voiceOpt
      match resolved with
      | none =>
          { msgs := [.errorMsg "Invalid skin_id"], voice := oldVoice,
            sessionUpdates := 0, dbSkinWrites := 0 }
      | some newVoice =>
          if !(validVoices.contains newVoice) then
            { msgs := [.errorMsg ("Invalid voice: " ++ newVoice ++
                ". Valid options: alloy, ash, ballad, coral, echo, sage, shimmer, verse, marin, cedar")],
              voice := oldVoice, sessionUpdates := 0, dbSkinWrites := 0 }
          else if !connected then
            { msgs := [.errorMsg "Session not ready. Please wait for connection."],
              voice := oldVoice, sessionUpdates := 0, dbSkinWrites := 0 }
          else
            { msgs := [.voiceChanged oldVoice newVoice],
              voice := newVoice, sessionUpdates := 1,
              dbSkinWrites :=
                if skinOpt.isSome && hasDb && dbOk then 1 else 0 }

/-! ## Asynchronous context refresh (`_update_context_async`,
lines 959–1020)

`rag_manager.prepare_context` calls `RAGPipeline.retrieve_context`, which
converts quota exhaustion into a `quota_exceeded` flag and any other
exception into an error payload (`backend/rag/pipeline.py` lines 52–75 and
124–137); the surrounding handler additionally catches a raised
`QuotaExceededError` and any other exception.  All these outcomes are the
constructors of `RagOutcome`. -/

/-- Outcome of the context-preparation call as observed by
`_update_context_async`. -/
inductive RagOutcome where
  | prepared (quotaExceeded : Bool)
  | raisedQuota
  | raisedOther
  deriving DecidableEq, Repr

/-- `_update_context_async`: returns the client messages sent and the
number of upstream `session.update` events pushed (the latter silently
dropped by `_send_event` when the link is down). -/
def updateContextAsync (o : RagOutcome) (connected : Bool) :
    List ClientMsg × Nat :=
  match o with
  | .prepared quotaExceeded =>
      let updates := if connected then 1 else 0
      if quotaExceeded then ([], updates)
      else ([.contextUpdated], updates)
  | .raisedQuota => ([], 0)
  | .raisedOther => ([], 0)

/-! ## Upstream voice link outbound operations
(`backend/realtime/openai_client.py`)

Every outbound operation serialises one wire event through `_send_event`
(lines 221–232).  With no live connection `_send_event` logs
`"Cannot send event: not connected"` and returns `None`; no exception is
raised to the caller.  With a live connection the serialised event is
written; a transport failure of the write is re-raised. -/

/-- Result of one outbound operation of the upstream link. -/
inductive SendResult where
  | sent (eventType : String)
  | droppedNotConnected
  | raisedSendFailure
  deriving DecidableEq, Repr

/-- Whether the result signals a failure condition to the caller (by a
propagating exception). -/
def SendResult.raisesToCaller : SendResult → Bool
  | .raisedSendFailure => true
  | _ => false

/-- `_send_event`: `connected` is `self.ws and self.is_connected`;
`wireOk` is the outcome of the transport write when attempted. -/
def sendEvent (connected wireOk : Bool) (eventType : String) : SendResult :=
  if !connected then .droppedNotConnected
  else if wireOk then .sent eventType
  else .raisedSendFailure

/-- `send_audio` (base64 chunk append). -/
def sendAudio (connected wireOk : Bool) : SendResult :=
  sendEvent connected wireOk "input_audio_buffer.append"

/-- `commit_audio`. -/
def commitAudio (connected wireOk : Bool) : SendResult :=
  sendEvent connected wireOk "input_audio_buffer.commit"

/-- `clear_audio_buffer`. -/
def clearAudioBuffer (connected wireOk : Bool) : SendResult :=
  sendEvent connected wireOk "input_audio_buffer.clear"

/-- `send_text`. -/
def sendText (connected wireOk : Bool) : SendResult :=
  sendEvent connected wireOk "conversation.item.create"

/-- `create_response`. -/
def createResponse (connected wireOk : Bool) : SendResult :=
  sendEvent connected wireOk "response.create"

/-- `cancel_response`. -/
def cancelResponse (connected wireOk : Bool) : SendResult :=
  sendEvent connected wireOk "response.cancel"

/-- A `session.update` push. -/
def pushSessionUpdate (connected wireOk : Bool) : SendResult :=
  sendEvent connected wireOk "session.update"

/-! ## Invariants of the audio tracker -/

/-- In every reachable tracker state, a zero chunk count forces the other
two counters to zero: resets clear all three together and every recorded
chunk increments the count. -/
theorem reachable_count_zero {st : TrackerState} (h : ReachableTracker st) :
    st.count = 0 → st.size = 0 ∧ st.durationMs = 0 := by
  induction h with
  | init => intro _; exact ⟨rfl, rfl⟩
  | record st n now _h _ih =>
      intro hc
      exact absurd hc (by simp [recordChunk])
  | reset st _h _ih => intro _; exact ⟨rfl, rfl⟩

/-! ## Claim theorems -/

/-- **C5.** For every content of the inter-arrival sample window, the
grace period (in ms) equals `clamp(max(2 × mean, max), 150, 500)`, hence
lies in [150, 500]; with no samples it is exactly 200ms. -/
theorem grace_period_clamped (l : List ℚ) (_hnn : ∀ x ∈ l, 0 ≤ x)
    (_hlen : l.length ≤ 10) :
    (l = [] → 1000 * gracePeriodS l = 200) ∧
    (l ≠ [] →
      1000 * gracePeriodS l =
        clampQ 150 500
          (max (2 * (1000 * (l.sum / (l.length : ℚ)))) (1000 * listMax l))) ∧
    150 ≤ 1000 * gracePeriodS l ∧ 1000 * gracePeriodS l ≤ 500 := by
  clear _hnn _hlen
  rcases l with _ | ⟨x, xs⟩
  · refine ⟨fun _ => by norm_num [gracePeriodS], fun h => absurd rfl h,
      by norm_num [gracePeriodS], by norm_num [gracePeriodS]⟩
  · have hform : 1000 * gracePeriodS (x :: xs) =
        clampQ 150 500
          (max (2 * (1000 * ((x :: xs).sum / (((x :: xs).length : ℚ)))))
            (1000 * listMax (x :: xs))) := by
      unfold gracePeriodS clampQ
      simp only [List.isEmpty_cons, if_false, Bool.false_eq_true]
      rw [mul_max_of_nonneg _ _ (by norm_num : (0:ℚ) ≤ 1000),
          mul_min_of_nonneg _ _ (by norm_num : (0:ℚ) ≤ 1000),
          mul_max_of_nonneg _ _ (by norm_num : (0:ℚ) ≤ 1000)]
      norm_num [mul_comm]
      ring_nf
    refine ⟨fun h => by simp at h, fun _ => hform, ?_, ?_⟩
    · rw [hform]; exact le_max_left _ _
    · rw [hform]
      exact max_le (by norm_num) (min_le_left _ _)

/-- Witness for `grace_period_clamped` at the one-sample window `[0.3s]`:
the clamp caps the doubled mean at 500ms. -/
theorem grace_period_clamped_witness :
    1000 * gracePeriodS [(3 : ℚ)/10] = 500 ∧
    150 ≤ 1000 * gracePeriodS [(3 : ℚ)/10] ∧
    1000 * gracePeriodS [(3 : ℚ)/10] ≤ 500 := by
  have h := grace_period_clamped [(3 : ℚ)/10]
    (by intro x hx; simp at hx; subst hx; norm_num) (by norm_num)
  refine ⟨?_, h.2.2.1, h.2.2.2⟩
  rw [h.2.1 (by simp)]
  norm_num [clampQ, listMax]

/-- **C4.** An `audio.commit` arriving with zero chunks recorded since the
last reset is rejected immediately (`no_audio` notice, a normal completion
rather than an error), with no grace-period wait, no upstream commit, and
no state change. -/
theorem commit_empty_buffer (st : TrackerState) (r : Except (List Char) Unit)
    (hreach : ReachableTracker st) (hc : st.count = 0) :
    handleAudioCommit true st r =
      { finalState := st, msgs := [ClientMsg.responseDone "no_audio"],
        upstreamCommits := 0, graceWaitS := none } := by
  obtain ⟨hsz, hdur⟩ := reachable_count_zero hreach hc
  unfold handleAudioCommit
  simp [hc, hdur]

/-- Witness for `commit_empty_buffer`: the freshly constructed session. -/
theorem commit_empty_buffer_witness :
    handleAudioCommit true initialTracker (Except.ok ()) =
      { finalState := initialTracker,
        msgs := [ClientMsg.responseDone "no_audio"],
        upstreamCommits := 0, graceWaitS := none } :=
  commit_empty_buffer initialTracker (Except.ok ()) ReachableTracker.init rfl

/-- **C3.** After the grace period (non-empty buffer): a buffer strictly
below the 100ms minimum is rejected with an `insufficient_audio` notice
and zero upstream commits; a buffer at/above 100ms leads to exactly one
upstream commit, whatever its outcome. -/
theorem commit_duration_threshold (st : TrackerState)
    (r : Except (List Char) Unit) (hne : st.count ≠ 0) :
    (st.durationMs < 100 →
      handleAudioCommit true st r =
        { finalState := resetAudioBuffer st,
          msgs := [ClientMsg.responseDone "insufficient_audio"],
          upstreamCommits := 0,
          graceWaitS := some (gracePeriodS st.intervals) }) ∧
    (100 ≤ st.durationMs →
      (handleAudioCommit true st r).upstreamCommits = 1 ∧
      (handleAudioCommit true st r).graceWaitS =
        some (gracePeriodS st.intervals)) := by
  have hg : (st.count == 0 && st.durationMs == 0) = false := by
    simp [hne]
  constructor
  · intro hlt
    unfold handleAudioCommit minBufferDurationMs
    simp [hg, hlt]
  · intro hge
    have hnlt : ¬(st.durationMs < minBufferDurationMs) := by
      unfold minBufferDurationMs; exact not_lt.mpr hge
    unfold handleAudioCommit
    rcases r with e | _
    · by_cases hb : isBufferError e = true <;> simp [hg, hnlt, hb]
    · simp [hg, hnlt]

/-- Witness for `commit_duration_threshold`: a single 2400-byte chunk is
a 50ms buffer, rejected with zero upstream commit calls; a single
9600-byte chunk is a 200ms buffer, committed upstream exactly once. -/
theorem commit_duration_threshold_witness :
    handleAudioCommit true (recordChunk initialTracker 2400 0)
        (Except.ok ()) =
      { finalState := resetAudioBuffer (recordChunk initialTracker 2400 0),
        msgs := [ClientMsg.responseDone "insufficient_audio"],
        upstreamCommits := 0, graceWaitS := some (1/5) } ∧
    (handleAudioCommit true (recordChunk initialTracker 9600 0)
        (Except.ok ())).upstreamCommits = 1 := by
  constructor
  · have h := (commit_duration_threshold (recordChunk initialTracker 2400 0)
      (Except.ok ()) (by decide)).1 (by norm_num [recordChunk, initialTracker])
    rw [h]
    norm_num [recordChunk, initialTracker, gracePeriodS]
  · exact ((commit_duration_threshold (recordChunk initialTracker 9600 0)
      (Except.ok ()) (by decide)).2
      (by norm_num [recordChunk, initialTracker])).1

/-- **C6.** After every `audio.commit` attempt with the link connected —
whatever the outcome — the three buffer counters (byte count, duration,
chunk count) are all zero together. -/
theorem commit_resets_counters (st : TrackerState)
    (r : Except (List Char) Unit) (hreach : ReachableTracker st) :
    (handleAudioCommit true st r).finalState.size = 0 ∧
    (handleAudioCommit true st r).finalState.durationMs = 0 ∧
    (handleAudioCommit true st r).finalState.count = 0 := by
  by_cases hg : (st.count == 0 && st.durationMs == 0) = true
  · have hc : st.count = 0 := by
      have := (Bool.and_eq_true _ _).mp hg
      simpa using this.1
    obtain ⟨hsz, hdur⟩ := reachable_count_zero hreach hc
    unfold handleAudioCommit
    simp [hg, hsz, hdur, hc]
  · unfold handleAudioCommit
    rw [Bool.not_eq_true] at hg
    by_cases hlt : st.durationMs < minBufferDurationMs
    · simp [hg, hlt, resetAudioBuffer]
    · rcases r with e | _
      · by_cases hb : isBufferError e = true <;>
          simp [hg, hlt, hb, resetAudioBuffer]
      · simp [hg, hlt, resetAudioBuffer]

/-- Witness for `commit_resets_counters`: a 200ms buffer committed
successfully ends with all three counters zero. -/
theorem commit_resets_counters_witness :
    (handleAudioCommit true (recordChunk initialTracker 9600 0)
        (Except.ok ())).finalState.size = 0 ∧
    (handleAudioCommit true (recordChunk initialTracker 9600 0)
        (Except.ok ())).finalState.durationMs = 0 ∧
    (handleAudioCommit true (recordChunk initialTracker 9600 0)
        (Except.ok ())).finalState.count = 0 :=
  commit_resets_counters (recordChunk initialTracker 9600 0) (Except.ok ())
    (ReachableTracker.record initialTracker 9600 0 ReachableTracker.init)

/-- **C2 (as amended).** Every outbound operation of the upstream link,
invoked with no live connection, is silently dropped by `_send_event`
(logged, nothing sent, nothing signalled to the caller); with a live
connection each operation emits its corresponding wire event. -/
theorem outbound_ops_not_connected (wireOk : Bool) :
    sendAudio false wireOk = SendResult.droppedNotConnected ∧
    commitAudio false wireOk = SendResult.droppedNotConnected ∧
    clearAudioBuffer false wireOk = SendResult.droppedNotConnected ∧
    sendText false wireOk = SendResult.droppedNotConnected ∧
    createResponse false wireOk = SendResult.droppedNotConnected ∧
    cancelResponse false wireOk = SendResult.droppedNotConnected ∧
    pushSessionUpdate false wireOk = SendResult.droppedNotConnected ∧
    (∀ ev : String, sendEvent false wireOk ev =
        SendResult.droppedNotConnected) ∧
    (∀ ev : String, (sendEvent false wireOk ev).raisesToCaller = false) ∧
    sendAudio true true = SendResult.sent "input_audio_buffer.append" ∧
    commitAudio true true = SendResult.sent "input_audio_buffer.commit" ∧
    clearAudioBuffer true true = SendResult.sent "input_audio_buffer.clear" ∧
    sendText true true = SendResult.sent "conversation.item.create" ∧
    createResponse true true = SendResult.sent "response.create" ∧
    cancelResponse true true = SendResult.sent "response.cancel" ∧
    pushSessionUpdate true true = SendResult.sent "session.update" :=
  ⟨rfl, rfl, rfl, rfl, rfl, rfl, rfl, fun _ => rfl, fun _ => rfl,
   rfl, rfl, rfl, rfl, rfl, rfl, rfl⟩

/-- Counterexample to **C2** as stated: committing the buffer with the
link down is silently dropped — no `NotConnected` condition reaches the
caller. -/
theorem outbound_not_connected_counterexample :
    commitAudio false true = SendResult.droppedNotConnected ∧
    (commitAudio false true).raisesToCaller = false ∧
    commitAudio false true ≠ SendResult.raisedSendFailure := by
  refine ⟨rfl, rfl, ?_⟩
  intro h
  exact absurd h (by decide)

/-- **C9.** A failed context refresh — the quota-exceeded flag from the
retriever, a raised quota error, or any other failure — sends no
error-typed message to the client; in fact no message at all is sent on
the failure paths. -/
theorem context_refresh_failure_silent (o : RagOutcome) (connected : Bool) :
    ((updateContextAsync o connected).1.all (fun m => !m.isError)) = true ∧
    (updateContextAsync (RagOutcome.prepared true) connected).1 = [] ∧
    (updateContextAsync RagOutcome.raisedQuota connected).1 = [] ∧
    (updateContextAsync RagOutcome.raisedOther connected).1 = [] := by
  refine ⟨?_, ?_, rfl, rfl⟩
  · cases o with
    | prepared q => cases q <;> simp [updateContextAsync, ClientMsg.isError]
    | raisedQuota => rfl
    | raisedOther => rfl
  · simp [updateContextAsync]

/-- **C8.** A `voice.change` whose requested voice is outside the fixed
allowed set (with no skin identifier to resolve) is answered with a
client-visible error and mutates nothing: the selected voice, the
upstream session configuration, and the stored preference are untouched. -/
theorem invalid_voice_rejected (v oldVoice : String) (skinReq : Option Nat)
    (connected hasDb dbOk : Bool)
    (hskin : skinReq = none ∨ skinReq = some 0)
    (hv : v ≠ "")
    (hinvalid : validVoices.contains v = false) :
    handleVoiceChange (some v) skinReq connected hasDb dbOk oldVoice =
      { msgs := [ClientMsg.errorMsg ("Invalid voice: " ++ v ++
          ". Valid options: alloy, ash, ballad, coral, echo, sage, shimmer, verse, marin, cedar")],
        voice := oldVoice, sessionUpdates := 0, dbSkinWrites := 0 } := by
  have hvb : (v == "") = false := by
    simpa using hv
  have hmem : v ∉ validVoices := by
    simpa using hinvalid
  rcases hskin with h | h <;> subst h <;>
    simp [handleVoiceChange, hvb, hmem]

/-- Witness for `invalid_voice_rejected`: the unknown voice `"robotic"`. -/
theorem invalid_voice_rejected_witness :
    handleVoiceChange (some "robotic") none true true true "shimmer" =
      { msgs := [ClientMsg.errorMsg ("Invalid voice: " ++ "robotic" ++
          ". Valid options: alloy, ash, ballad, coral, echo, sage, shimmer, verse, marin, cedar")],
        voice := "shimmer", sessionUpdates := 0, dbSkinWrites := 0 } :=
  invalid_voice_rejected "robotic" "shimmer" none true true true
    (Or.inl rfl) (by decide) (by decide)

/-- Helper: a turn whose user text fails the meaningful-text predicate
takes one of the two early-return paths of `_handle_response_complete`,
with no persistence and no terminal notice added. -/
theorem hrc_skip_nonmeaningful (um asst : List Char) (hasDb : Bool)
    (pm : List ClientMsg) (c f r1 r2 d : Bool)
    (h : isMeaningfulText um = false) :
    handleResponseComplete um asst hasDb pm c f r1 r2 d =
      (if um.isEmpty then
        { msgs := [], redisSaved := 0, dbSaved := 0,
          newUserMsg := um, newAsstMsg := asst }
       else
        { msgs := if hasDb then pm else [], redisSaved := 0, dbSaved := 0,
          newUserMsg := [], newAsstMsg := [] }) := by
  unfold handleResponseComplete
  by_cases he : um.isEmpty <;> simp [he, h]

/-- **C7.** A completed turn whose user text fails the meaningful-text
predicate (for example only punctuation, only emoji, or blank) is
persisted to neither the rolling cache nor the durable store. -/
theorem nonmeaningful_not_persisted (um asst : List Char) (hasDb : Bool)
    (pm : List ClientMsg) (c f r1 r2 d : Bool)
    (h : isMeaningfulText um = false) :
    (handleResponseComplete um asst hasDb pm c f r1 r2 d).redisSaved = 0 ∧
    (handleResponseComplete um asst hasDb pm c f r1 r2 d).dbSaved = 0 ∧
    isMeaningfulText (String.toList "...!?") = false ∧
    isMeaningfulText (String.toList "😀🎉") = false ∧
    isMeaningfulText (String.toList "  ") = false := by
  rw [hrc_skip_nonmeaningful um asst hasDb pm c f r1 r2 d h]
  refine ⟨?_, ?_, by decide, by decide, by decide⟩ <;>
    by_cases he : um.isEmpty <;> simp [he]

/-- Witness for `nonmeaningful_not_persisted`: the punctuation-only turn
text `"...!?"`. -/
theorem nonmeaningful_not_persisted_witness :
    isMeaningfulText (String.toList "...!?") = false ∧
    (handleResponseComplete (String.toList "...!?") (String.toList "ok")
      true [] false true true true true).redisSaved = 0 ∧
    (handleResponseComplete (String.toList "...!?") (String.toList "ok")
      true [] false true true true true).dbSaved = 0 :=
  ⟨by decide,
   (nonmeaningful_not_persisted (String.toList "...!?") (String.toList "ok")
     true [] false true true true true (by decide)).1,
   (nonmeaningful_not_persisted (String.toList "...!?") (String.toList "ok")
     true [] false true true true true (by decide)).2.1⟩

/-- Helper: any text whose emoji-stripped, trimmed form is shorter than
two characters fails the meaningful-text predicate. -/
theorem meaningful_needs_two_chars (t : List Char)
    (h : (pyStrip (removeEmojis t)).length < 2) :
    isMeaningfulText t = false := by
  unfold isMeaningfulText
  by_cases hg : (t.isEmpty || (pyStrip t).length == 0) = true <;>
    simp [hg, h]

/-- **C10.** The meaningful-text predicate rejects any text whose
emoji-stripped, trimmed form is shorter than 2 characters — in particular
a single-character message such as `"a"` — and such a turn is persisted
to neither the rolling cache nor the durable store. -/
theorem short_text_not_meaningful (t asst : List Char) (hasDb : Bool)
    (pm : List ClientMsg) (c f r1 r2 d : Bool)
    (h : (pyStrip (removeEmojis t)).length < 2) :
    isMeaningfulText t = false ∧
    (handleResponseComplete t asst hasDb pm c f r1 r2 d).redisSaved = 0 ∧
    (handleResponseComplete t asst hasDb pm c f r1 r2 d).dbSaved = 0 ∧
    isMeaningfulText (String.toList "a") = false := by
  have hm := meaningful_needs_two_chars t h
  have hrc := hrc_skip_nonmeaningful t asst hasDb pm c f r1 r2 d hm
  refine ⟨hm, ?_, ?_, by decide⟩ <;> rw [hrc] <;>
    by_cases he : t.isEmpty <;> simp [he]

/-- Witness for `short_text_not_meaningful`: the single alphanumeric
character `"a"`. -/
theorem short_text_not_meaningful_witness :
    isMeaningfulText (String.toList "a") = false ∧
    (handleResponseComplete (String.toList "a") [] true [] false true
      true true true).redisSaved = 0 ∧
    (handleResponseComplete (String.toList "a") [] true [] false true
      true true true).dbSaved = 0 :=
  ⟨(short_text_not_meaningful (String.toList "a") [] true [] false true
      true true true (by decide)).1,
   (short_text_not_meaningful (String.toList "a") [] true [] false true
      true true true (by decide)).2.1,
   (short_text_not_meaningful (String.toList "a") [] true [] false true
      true true true (by decide)).2.2.1⟩

/-- Helper: a message list free of `response.done` notices counts zero. -/
theorem responseDoneCount_of_none (msgs : List ClientMsg)
    (h : msgs.all (fun m => !m.isResponseDone) = true) :
    responseDoneCount msgs = 0 := by
  unfold responseDoneCount
  have : msgs.filter ClientMsg.isResponseDone = [] := by
    rw [List.filter_eq_nil_iff]
    intro a ha
    have := List.all_eq_true.mp h a ha
    simp at this
    simp [this]
  rw [this]
  rfl

/-- Counterexample to **C1** as stated: a completed upstream turn whose
user text is non-meaningful (here only punctuation) produces no
`response.done` notice at all — `_handle_response_complete` returns
before the notice is sent. -/
theorem turn_without_terminal_notice :
    responseDoneCount (handleResponseComplete (String.toList "...")
      (String.toList "A real assistant reply") true [] false true
      true true true).msgs = 0 := by
  decide

/-- **C1 (as amended).** With the upstream link connected, an
`audio.commit` yields exactly one `response.done` when it is rejected
(`no_audio`, `insufficient_audio`, or `openai_rejected` for an upstream
buffer rejection); a non-buffer commit failure yields one `error` message
instead, and a successful commit yields no notice at commit time.  A
completed upstream turn yields exactly one `response.done` (status
`completed`) — even when the rolling-cache and durable-store writes fail —
exactly when its user text is non-empty, cleans to something non-empty,
passes the meaningful-text predicate, and (with a database session
present and no cached user id) the user row is found; otherwise the turn
completion sends no `response.done`. -/
theorem terminal_notice_discipline :
    (∀ (st : TrackerState) (r : Except (List Char) Unit),
      (handleAudioCommit true st r).msgs =
        (if st.count == 0 && st.durationMs == 0 then
          [ClientMsg.responseDone "no_audio"]
         else if st.durationMs < minBufferDurationMs then
          [ClientMsg.responseDone "insufficient_audio"]
         else
           match r with
           | .ok _ => []
           | .error e =>
               if isBufferError e then
                 [ClientMsg.responseDone "openai_rejected"]
               else
                 [ClientMsg.errorMsg "Error processing audio. Please try again."])) ∧
    (∀ (um asst : List Char) (hasDb : Bool) (pm : List ClientMsg)
       (c f r1 r2 d : Bool),
      pm.all (fun m => !m.isResponseDone) = true →
      responseDoneCount
          (handleResponseComplete um asst hasDb pm c f r1 r2 d).msgs =
        (if !um.isEmpty && !(cleanChatMessage um).isEmpty &&
            isMeaningfulText um && !(hasDb && !c && !f) then 1 else 0)) := by
  constructor
  · intro st r
    by_cases hg : (st.count == 0 && st.durationMs == 0) = true
    · simp [handleAudioCommit, hg]
    · by_cases hlt : st.durationMs < minBufferDurationMs
      · simp [handleAudioCommit, hg, hlt]
      · rcases r with e | _
        · by_cases hb : isBufferError e = true <;>
            simp [handleAudioCommit, hg, hlt, hb]
        · simp [handleAudioCommit, hg, hlt]
  · intro um asst hasDb pm c f r1 r2 d hpm
    have hpc : responseDoneCount (if hasDb then pm else []) = 0 := by
      cases hasDb with
      | true => exact responseDoneCount_of_none pm hpm
      | false => rfl
    by_cases he : um.isEmpty
    · simp [handleResponseComplete, he, responseDoneCount]
    · by_cases hclean : (cleanChatMessage um).isEmpty
      · simp [handleResponseComplete, he, hclean, hpc]
      · by_cases hmean : isMeaningfulText um
        · by_cases hdb : (hasDb && !c && !f) = true
          · simp [handleResponseComplete, he, hclean, hmean, hdb, hpc]
          · have h1 : responseDoneCount
                ((if hasDb then pm else []) ++
                 [ClientMsg.responseDone "completed"]) = 1 := by
              unfold responseDoneCount at hpc ⊢
              rw [List.filter_append, List.length_append, hpc]
              rfl
            simp [handleResponseComplete, he, hclean, hmean, hdb, h1]
        · simp [handleResponseComplete, he, hclean, hmean, hpc]

/-- Witness for `terminal_notice_discipline`: a meaningful turn completes
with exactly one `response.done` even though both the rolling-cache
writes and the durable insert fail. -/
theorem terminal_notice_discipline_witness :
    responseDoneCount (handleResponseComplete (String.toList "hello there")
      (String.toList "hi") true [] false true false false false).msgs = 1 := by
  have h := terminal_notice_discipline.2 (String.toList "hello there")
    (String.toList "hi") true [] false true false false false (by decide)
  rw [h]
  decide

end Mavu
